import Mathlib

/-!
Verification of `slideagent_mcp/utils/plot_buddy.py` (class `PlotBuddy`).

The Python module is embedded shallowly:

* Filesystem and matplotlib effects are captured by a `World` record of
  observation functions (`pathExists`, `styleUseOk`, `imreadOk`, `saveOk`,
  `listDir`, `resolve`, `cwd`, `repoRoot`).  Every method that reads the
  filesystem or calls matplotlib takes the `World` as an explicit argument.
* Python exceptions are modelled with `Except PyError`.  A Python
  `try/except Exception` block maps the error branch back into `.ok`, just
  as the code does.
* `print` diagnostics are modelled as a `List String` log in the result.
* Python strings are Lean `String`s; the handful of `str`/`os.path`
  operations the code uses (`basename`, `join`, `splitext`, `replace`,
  `lower`, `in`, `endswith`) are implemented below over the character list.
* Figures, axes and text elements are records carrying exactly the fields
  the code queries (`get_xticks`-count, labels, title, visibility, text
  content); float geometry (positions, sizes, dpi) is not modelled since
  no claim refers to it.
-/

/-! ### String and path helpers (models of the Python primitives used) -/

/-- Model of `p.isPrefixOf`-style check: does `s` start with `p`? -/
def strStartsWith (s p : String) : Bool :=
  p.data.isPrefixOf s.data

/-- Model of Python `s.endswith(suf)`. -/
def strEndsWith (s suf : String) : Bool :=
  suf.data.reverse.isPrefixOf s.data.reverse

/-- Model of Python `s.lower()` (ASCII; the code only compares ASCII text). -/
def pyLower (s : String) : String :=
  String.mk (s.data.map Char.toLower)

/-- Does `hay` contain `needle` as a contiguous sublist?  (Model of
Python `needle in hay` on strings, via `hasSubList needle.data hay.data`.) -/
def hasSubList (needle : List Char) : List Char → Bool
  | [] => needle.isPrefixOf []
  | c :: rest => needle.isPrefixOf (c :: rest) || hasSubList needle rest

/-- Model of Python `needle in hay` for strings. -/
def strContainsSub (hay needle : String) : Bool :=
  hasSubList needle.data hay.data

/-- Core of Python `s.replace(pat, rep)`: replaces every non-overlapping
occurrence left to right.  Fuel = length of the string suffices because
each step consumes at least one character (the code only calls this with
the non-empty pattern `"_theme"`). -/
def pyReplaceCore (pat rep : List Char) : Nat → List Char → List Char
  | 0, s => s
  | Nat.succ fuel, s =>
    if pat.isPrefixOf s ∧ pat ≠ [] then
      rep ++ pyReplaceCore pat rep fuel (s.drop pat.length)
    else
      match s with
      | [] => []
      | c :: rest => c :: pyReplaceCore pat rep fuel rest

/-- Model of Python `s.replace(pat, rep)` (for non-empty `pat`). -/
def pyReplace (s pat rep : String) : String :=
  String.mk (pyReplaceCore pat.data rep.data s.data.length s.data)

/-- Index of the last occurrence of `c` in `cs`, if any. -/
def lastIdxOf (cs : List Char) (c : Char) : Option Nat :=
  (cs.foldl
    (fun (acc : Nat × Option Nat) ch =>
      (acc.1 + 1, if ch = c then some acc.1 else acc.2))
    (0, none)).2

/-- Model of `os.path.basename`: the part after the last `/`. -/
def basename (p : String) : String :=
  String.mk ((p.data.reverse.takeWhile (fun c => c ≠ '/')).reverse)

/-- Model of `os.path.join(a, b)` on POSIX for two components. -/
def joinPath (a b : String) : String :=
  if strStartsWith b "/" then b
  else if a = "" ∨ strEndsWith a "/" then a ++ b
  else a ++ "/" ++ b

/-- Model of `os.path.splitext`: split at the rightmost dot that lies
inside the basename and is preceded there by at least one non-dot
character. -/
def splitext (p : String) : String × String :=
  let cs := p.data
  let start := match lastIdxOf cs '/' with
    | some i => i + 1
    | none => 0
  match lastIdxOf cs '.' with
  | none => (p, "")
  | some dotIdx =>
    if start ≤ dotIdx then
      if ((cs.drop start).take (dotIdx - start)).any (fun ch => ch ≠ '.') then
        (String.mk (cs.take dotIdx), String.mk (cs.drop dotIdx))
      else (p, "")
    else (p, "")

/-- Model of `pathlib.Path(f).stem` for a plain filename (no separator):
the name with its final extension removed. -/
def pathStem (f : String) : String :=
  (splitext f).1

/-- A single quote character, escaped so it can be spliced into the
Python error/warning message texts. -/
def quoted (s : String) : String := "\x27" ++ s ++ "\x27"

/-! ### Environment and error model -/

/-- Observations of the filesystem and of the matplotlib library that
`plot_buddy.py` makes.  `styleUseOk p` says whether `plt.style.use(p)`
succeeds; `imreadOk p` whether `mpimg.imread(p)` succeeds; `saveOk p`
whether `fig.savefig(p, ...)` succeeds; `listDir d` gives the directory
entries that `Path(d).glob` enumerates (in glob order); `resolve d`
models `Path(d).resolve()`; `repoRoot` models
`Path(__file__).parent.parent.parent`. -/
structure World where
  cwd : String
  repoRoot : String
  pathExists : String → Bool
  styleUseOk : String → Bool
  imreadOk : String → Bool
  saveOk : String → Bool
  listDir : String → List String
  resolve : String → String

/-- The Python exception classes raised or caught by the module. -/
inductive PyError where
  | fileNotFoundError (msg : String)
  | valueError (msg : String)
  | exception (msg : String)
deriving DecidableEq

/-- Message carried by an exception. -/
def PyError.msg : PyError → String
  | .fileNotFoundError m => m
  | .valueError m => m
  | .exception m => m

/-! ### The PlotBuddy state

Embeds the mutable fields of the Python class that the claims refer to.
The numeric layout constants (`DEFAULT_*`: figure sizes, font sizes,
title offsets) are instance fields in the source but are plain float/int
constants never read by any claimed behaviour, so they are left out of
the record. -/

structure PlotBuddy where
  style_dir_path : String
  current_style : Option String
  icon_logo_path : Option String
  text_logo_path : Option String
deriving DecidableEq

/-- Embedding of `PlotBuddy.__init__(style_dir_path=None)`.  Python's
`style_dir_path or os.getcwd()` makes both `None` and `""` fall back to
the current working directory. -/
def PlotBuddy.init (w : World) (style_dir_path : Option String) : PlotBuddy :=
  let sdp := match style_dir_path with
    | none => w.cwd
    | some s => if s = "" then w.cwd else s
  let theme_name := basename sdp
  let icon := joinPath sdp (theme_name ++ "_icon_logo.png")
  let textl := joinPath sdp (theme_name ++ "_text_logo.png")
  { style_dir_path := sdp
    current_style := none
    icon_logo_path := if w.pathExists icon then some icon else none
    text_logo_path := if w.pathExists textl then some textl else none }

/-- Embedding of `plt.style.use(path)`: raises (some `Exception`
subclass) exactly when the world says parsing the style file fails. -/
def pltStyleUse (w : World) (path : String) : Except PyError Unit :=
  if w.styleUseOk path then .ok () else .error (.exception ("could not parse " ++ path))

/-- Embedding of `PlotBuddy.load_style_from_file(style_name)`.  Result is
`(returned-bool, new-state, printed-lines)`; the `Except` layer is the
function's exception channel.  The source wraps the `plt.style.use` call
in `try/except Exception`, turning any parse failure into a `False`
return, so the error branch of the outer `Except` is never used. -/
def PlotBuddy.load_style_from_file (w : World) (b : PlotBuddy) (style_name : String) :
    Except PyError (Bool × PlotBuddy × List String) :=
  let style_path := joinPath b.style_dir_path (style_name ++ ".mplstyle")
  if w.pathExists style_path = false then
    .ok (false, b, ["Warning: Style file not found at " ++ style_path])
  else
    match pltStyleUse w style_path with
    | .ok _ => .ok (true, { b with current_style := some style_name }, [])
    | .error e => .ok (false, b, ["Error loading style " ++ style_name ++ ": " ++ e.msg])

/-! ### Theme resolution (`from_theme`, `from_project_config`) -/

/-- Candidate (a) of `from_theme`'s search:
`base_dir / "user_resources" / "themes" / theme_name`. -/
def userThemePath (w : World) (theme_name : String) : String :=
  joinPath (joinPath (joinPath w.repoRoot "user_resources") "themes") theme_name

/-- Candidate (b): `base_dir / "slideagent_mcp" / "resources" / "themes" /
"core" / theme_name`. -/
def systemThemePath (w : World) (theme_name : String) : String :=
  joinPath (joinPath (joinPath (joinPath (joinPath w.repoRoot "slideagent_mcp")
    "resources") "themes") "core") theme_name

/-- Candidate (c), the backward-compatibility default:
`os.path.join("themes", theme_name)`. -/
def legacyThemePath (theme_name : String) : String :=
  joinPath "themes" theme_name

/-- The theme-directory selection block of `PlotBuddy.from_theme`: with an
explicit `themes_dir` the subdirectory is used directly; otherwise the
user location, then the system location are probed and the legacy
relative path is the final fallback. -/
def resolve_theme_dir (w : World) (theme_name : String) (themes_dir : Option String) : String :=
  match themes_dir with
  | some d => joinPath d theme_name
  | none =>
    if w.pathExists (userThemePath w theme_name) then userThemePath w theme_name
    else if w.pathExists (systemThemePath w theme_name) then systemThemePath w theme_name
    else legacyThemePath theme_name

/-- Embedding of classmethod `PlotBuddy.from_theme(theme_name, themes_dir)`.
Returns the configured instance together with the printed diagnostics. -/
def PlotBuddy.from_theme (w : World) (theme_name : String) (themes_dir : Option String) :
    Except PyError (PlotBuddy × List String) :=
  let theme_path := resolve_theme_dir w theme_name themes_dir
  let buddy := PlotBuddy.init w (some theme_path)
  let style_name := theme_name ++ "_style"
  match PlotBuddy.load_style_from_file w buddy style_name with
  | .ok (true, b2, log) => .ok (b2, log)
  | .ok (false, b2, log) =>
    .ok (b2, log ++ ["Warning: Could not load style for theme " ++ quoted theme_name ++
      ", using default styling"])
  | .error e => .error e

/-- Embedding of classmethod `PlotBuddy.from_project_config(config_path)`
(the `config_path` argument is ignored by the source).  `Path(d).glob
("*_theme.css")` is modelled as filtering `w.listDir d` by the suffix
`"_theme.css"` (fnmatch `*` also matches the empty string).  The loop
takes the first match and derives the theme name with
`stem.replace("_theme", "")`; `if not theme_name` treats both "no CSS
file" and an empty derived name as missing. -/
def PlotBuddy.from_project_config (w : World) : Except PyError (PlotBuddy × List String) :=
  let theme_dir := if w.pathExists "theme" then "theme" else "../theme"
  if w.pathExists theme_dir = false then
    match PlotBuddy.from_theme w "acme_corp" none with
    | .ok (b, log) => .ok (b, "Warning: Theme folder not found, using default theme" :: log)
    | .error e => .error e
  else
    let cssFiles := (w.listDir theme_dir).filter (fun f => strEndsWith f "_theme.css")
    let theme_name := match cssFiles with
      | [] => ""
      | f :: _ => pyReplace (pathStem f) "_theme" ""
    if theme_name = "" then
      match PlotBuddy.from_theme w "acme_corp" none with
      | .ok (b, log) => .ok (b, ("Warning: No theme CSS file found in " ++ theme_dir) :: log)
      | .error e => .error e
    else
      let buddy := PlotBuddy.init w (some (w.resolve theme_dir))
      let style_name := theme_name ++ "_style"
      match PlotBuddy.load_style_from_file w buddy style_name with
      | .ok (_, b2, log) => .ok (b2, log)
      | .error e => .error e

/-! ### Figure model -/

/-- The observable state of one matplotlib axes object, restricted to the
fields `plot_buddy.py` queries: the number of x/y ticks, the axis labels,
the title and the visibility flag. -/
structure AxesBox where
  xticks : Nat
  yticks : Nat
  xlabel : String
  ylabel : String
  title : String
  visible : Bool
deriving DecidableEq

/-- One figure-level text element (`fig.text` / `fig.texts`). -/
structure FigText where
  content : String
  visible : Bool
deriving DecidableEq

/-- A figure: its axes list (`fig.get_axes()`) and its figure-level text
elements (`fig.texts`). -/
structure Figure where
  axes : List AxesBox
  texts : List FigText
deriving DecidableEq

/-- The `_save_clean_version` heuristic for spotting a logo inset axes:
no ticks, no axis labels, no title (Python truthiness: an empty string is
falsy). -/
def isLogoLikeAxes (a : AxesBox) : Bool :=
  a.xticks = 0 && a.yticks = 0 && a.xlabel = "" && a.ylabel = "" && a.title = ""

/-- The `_save_clean_version` test for a source-citation text element:
`'source:' in text.get_text().lower()`. -/
def isSourceText (t : FigText) : Bool :=
  strContainsSub (pyLower t.content) "source:"

/-! ### Logo, citation and legend operations -/

/-- Insertion order of the `positions` dict in `add_logo`. -/
def logoPositionKeys : List String :=
  ["bottom-right", "bottom-left", "top-right", "top-left"]

/-- The inset axes created by `add_logo` (`fig.add_axes` + `imshow` +
`axis('off')`): it exposes no ticks, labels or title, which is exactly
what `_save_clean_version` later keys on. -/
def logoAxes : AxesBox :=
  { xticks := 0, yticks := 0, xlabel := "", ylabel := "", title := "", visible := true }

/-- Embedding of `PlotBuddy.add_logo(fig, logo_path, position, ...)`.
The checks happen in source order: falsy-or-missing path first
(`FileNotFoundError`), then `mpimg.imread` (re-raised as a generic
`Exception`), then the position lookup (`ValueError` listing the
accepted keys), and only then is the inset axes added. -/
def PlotBuddy.add_logo (w : World) (fig : Figure) (logo_path : Option String)
    (position : String) : Except PyError Figure :=
  match logo_path with
  | none => .error (.fileNotFoundError "Logo file not found: None")
  | some p =>
    if p = "" || w.pathExists p = false then
      .error (.fileNotFoundError ("Logo file not found: " ++ p))
    else if w.imreadOk p = false then
      .error (.exception ("Could not load logo image: could not read " ++ p))
    else if logoPositionKeys.contains position then
      .ok { fig with axes := fig.axes ++ [logoAxes] }
    else
      .error (.valueError ("Invalid position: " ++ position ++ ". Must be one of [" ++
        quoted "bottom-right" ++ ", " ++ quoted "bottom-left" ++ ", " ++
        quoted "top-right" ++ ", " ++ quoted "top-left" ++ "]"))

/-- Insertion order of the `positions` dict in `add_source_citation`. -/
def citePositionKeys : List String := ["bottom-left", "bottom-right"]

/-- Embedding of `PlotBuddy.add_source_citation(fig, source, position, ...)`.
An empty (falsy) `source` returns immediately; an unknown position raises
`ValueError`; otherwise `fig.text(..., f"Source: {source}", ...)` appends
a figure text element. -/
def PlotBuddy.add_source_citation (fig : Figure) (source : String)
    (position : String) : Except PyError Figure :=
  if source = "" then .ok fig
  else if citePositionKeys.contains position then
    .ok { fig with texts := fig.texts ++ [{ content := "Source: " ++ source, visible := true }] }
  else
    .error (.valueError ("Invalid position: " ++ position ++ ". Must be one of [" ++
      quoted "bottom-left" ++ ", " ++ quoted "bottom-right" ++ "]"))

/-- A legend handle artist: the code distinguishes `Line2D` instances
(converted to square patches of the same colour) from everything else. -/
inductive Handle where
  | line2D (color : String)
  | rectPatch (color : String)
  | otherArtist
deriving DecidableEq

/-- The legend object produced by `ax.legend(handles, labels, **kwargs)`,
restricted to the arguments the code computes: handles, labels, the
column count and the `loc` value from the position table. -/
structure Legend where
  handles : List Handle
  labels : List String
  ncol : Nat
  loc : String
deriving DecidableEq

/-- An axis as `create_legend` observes it: `get_legend_handles_labels()`
returns the handle/label pairs of the labelled plot elements, and the
attached legend (if any) is recorded. -/
structure AxisState where
  legendItems : List (Handle × String)
  legend : Option Legend
deriving DecidableEq

/-- The `Line2D`-to-patch conversion loop of automatic mode. -/
def convertHandle : Handle → Handle
  | .line2D c => .rectPatch c
  | h => h

/-- Manual mode: one `(label, color)` tuple per entry (a Python tuple is
modelled as a `List String`); any entry whose length is not 2 raises
`ValueError` at the point the loop reaches it. -/
def manualEntries : List (List String) → Except PyError (List Handle × List String)
  | [] => .ok ([], [])
  | e :: rest =>
    match e with
    | [label, color] =>
      match manualEntries rest with
      | .ok (hs, ls) => .ok (Handle.rectPatch color :: hs, label :: ls)
      | .error err => .error err
    | _ => .error (.valueError "legend_entries must be tuples of (label, color)")

/-- The `positions` dict of `create_legend` (key ↦ `loc`; the float
`bbox_to_anchor` pairs are not modelled). -/
def legendPositions : List (String × String) :=
  [("bottom", "upper center"), ("right", "center left"), ("top", "lower center")]

/-- The automatic `ncol` heuristic.  `avg_label_length > 40` is Python
float division of the total length by the count; for integer data the
comparison is the exact cross-multiplied one modelled here.  `labels` is
non-empty at this point (the empty case returned `None` earlier). -/
def autoNcol (labels : List String) : Nat :=
  let total := (labels.map String.length).foldl (fun a b => a + b) 0
  if total > 40 * labels.length then min 2 labels.length
  else if total > 25 * labels.length then min 3 labels.length
  else if labels.length > 5 then min 4 labels.length
  else labels.length

/-- Embedding of `PlotBuddy.create_legend(ax, legend_entries, ncol,
position, **kwargs)`.  Returns the legend (or `None`) plus the updated
axis.  Note the position lookup is `positions.get(position,
positions['bottom'])`: an unknown key silently falls back to the
bottom configuration instead of raising. -/
def PlotBuddy.create_legend (ax : AxisState) (legend_entries : Option (List (List String)))
    (ncolArg : Option Nat) (position : String) :
    Except PyError (Option Legend × AxisState) :=
  let collected : Except PyError (List Handle × List String) :=
    match legend_entries with
    | some es => manualEntries es
    | none =>
      .ok ((ax.legendItems.map Prod.fst).map convertHandle, ax.legendItems.map Prod.snd)
  match collected with
  | .error e => .error e
  | .ok (handles, labels) =>
    if handles.isEmpty || labels.isEmpty then
      .ok (none, ax)
    else
      let ncol := match ncolArg with
        | some n => n
        | none => autoNcol labels
      let loc := match legendPositions.lookup position with
        | some l => l
        | none => "upper center"
      let legend : Legend := { handles := handles, labels := labels, ncol := ncol, loc := loc }
      .ok (some legend, { ax with legend := some legend })

/-! ### Saving (`save`, `_save_clean_version`) -/

/-- The hide step of `_save_clean_version` for one axes: the recorded
original visibility is returned alongside (`none` = not touched). -/
def hideAxesStep (a : AxesBox) : AxesBox × Option Bool :=
  if isLogoLikeAxes a then ({ a with visible := false }, some a.visible) else (a, none)

/-- The hide step for one figure text element. -/
def hideTextStep (t : FigText) : FigText × Option Bool :=
  if isSourceText t then ({ t with visible := false }, some t.visible) else (t, none)

/-- The restore loop: elements recorded in `original_states` get their
stored visibility back; untouched elements are left alone. -/
def restoreAxes (p : AxesBox × Option Bool) : AxesBox :=
  match p.2 with
  | some v => { p.1 with visible := v }
  | none => p.1

/-- The restore loop for text elements. -/
def restoreText (p : FigText × Option Bool) : FigText :=
  match p.2 with
  | some v => { p.1 with visible := v }
  | none => p.1

/-- The figure as it stands at the `fig.savefig` call inside
`_save_clean_version`: logo-like axes and source texts hidden. -/
def cleanedFigure (fig : Figure) : Figure :=
  { axes := fig.axes.map (fun a => (hideAxesStep a).1)
    texts := fig.texts.map (fun t => (hideTextStep t).1) }

/-- The figure after the restore loop runs. -/
def restoredFigure (fig : Figure) : Figure :=
  { axes := fig.axes.map (fun a => restoreAxes (hideAxesStep a))
    texts := fig.texts.map (fun t => restoreText (hideTextStep t)) }

/-- Embedding of `PlotBuddy._save_clean_version(fig, filepath, **kwargs)`.
On success: the restored figure plus the single write performed.  If
`savefig` raises, the exception propagates before the restore loop runs,
so the error carries the still-hidden figure state. -/
def PlotBuddy.save_clean_version (w : World) (fig : Figure) (filepath : String) :
    Except (PyError × Figure) (Figure × List (String × Figure)) :=
  if w.saveOk filepath then
    .ok (restoredFigure fig, [(filepath, cleanedFigure fig)])
  else
    .error (.exception ("savefig failed: " ++ filepath), cleanedFigure fig)

/-- The outcome of `PlotBuddy.save`: the paths returned to the caller,
the figure state afterwards, and the `(path, figure-at-save-time)` writes
in order. -/
structure SaveOutcome where
  returnedPaths : List String
  finalFig : Figure
  writes : List (String × Figure)
deriving DecidableEq

/-- Embedding of `PlotBuddy.save(filepath, branded, **kwargs)`.
With `branded=True` it writes `<base>_branded<ext>` with the figure as
is, then delegates to `_save_clean_version` for `<base>_clean<ext>` and
returns both paths; with `branded=False` only the clean variant is
written and returned. -/
def PlotBuddy.save (w : World) (fig : Figure) (filepath : String) (branded : Bool) :
    Except (PyError × Figure) SaveOutcome :=
  let base := (splitext filepath).1
  let ext := (splitext filepath).2
  if branded then
    let branded_path := base ++ "_branded" ++ ext
    if w.saveOk branded_path = false then
      .error (.exception ("savefig failed: " ++ branded_path), fig)
    else
      let clean_path := base ++ "_clean" ++ ext
      match PlotBuddy.save_clean_version w fig clean_path with
      | .ok (fig2, ws) =>
        .ok { returnedPaths := [branded_path, clean_path]
              finalFig := fig2
              writes := (branded_path, fig) :: ws }
      | .error ef => .error ef
  else
    let clean_path := base ++ "_clean" ++ ext
    match PlotBuddy.save_clean_version w fig clean_path with
    | .ok (fig2, ws) =>
      .ok { returnedPaths := [clean_path], finalFig := fig2, writes := ws }
    | .error ef => .error ef

/-! ### Shared helper lemmas -/

/-- Shape lemma: `load_style_from_file` always returns through the `ok`
channel, either succeeding with only `current_style` updated or failing
with the state untouched. -/
theorem load_style_cases (w : World) (b : PlotBuddy) (n : String) :
    (∃ log, PlotBuddy.load_style_from_file w b n =
        Except.ok (true, { b with current_style := some n }, log)) ∨
    (∃ log, PlotBuddy.load_style_from_file w b n = Except.ok (false, b, log)) := by
  unfold PlotBuddy.load_style_from_file pltStyleUse
  by_cases h1 : w.pathExists (joinPath b.style_dir_path (n ++ ".mplstyle")) = false
  · right
    refine ⟨["Warning: Style file not found at " ++
      joinPath b.style_dir_path (n ++ ".mplstyle")], ?_⟩
    simp [h1]
  · by_cases h2 : w.styleUseOk (joinPath b.style_dir_path (n ++ ".mplstyle"))
    · left
      refine ⟨[], ?_⟩
      simp [h1, h2]
    · right
      refine ⟨["Error loading style " ++ n ++ ": " ++
        (PyError.exception ("could not parse " ++
          joinPath b.style_dir_path (n ++ ".mplstyle"))).msg], ?_⟩
      simp [h1, h2]

/-- `from_theme` never raises. -/
theorem from_theme_ok (w : World) (tn : String) (td : Option String) :
    ∃ b log, PlotBuddy.from_theme w tn td = Except.ok (b, log) := by
  unfold PlotBuddy.from_theme
  rcases load_style_cases w (PlotBuddy.init w (some (resolve_theme_dir w tn td))) (tn ++ "_style")
    with ⟨log, hL⟩ | ⟨log, hL⟩
  · exact ⟨{ PlotBuddy.init w (some (resolve_theme_dir w tn td)) with
      current_style := some (tn ++ "_style") }, log, by simp only [hL]⟩
  · exact ⟨PlotBuddy.init w (some (resolve_theme_dir w tn td)),
      log ++ ["Warning: Could not load style for theme " ++ quoted tn ++
        ", using default styling"], by simp only [hL]⟩

/-! ### Claim C1 -/

/-- Claim C1 counterexample: a world whose style file is present but
malformed.  `load_style_from_file` returns `False` with an error log — it
does not propagate the parse exception, contrary to the claim that it
"raises/propagates ... if and only if the underlying style-parsing step
throws for a file that is present but malformed". -/
def WC1 : World :=
  { cwd := "/proj", repoRoot := "/repo"
    pathExists := fun p => p = "/proj/bad_style.mplstyle"
    styleUseOk := fun _ => false
    imreadOk := fun _ => true, saveOk := fun _ => true
    listDir := fun _ => [], resolve := fun p => p }

/-- State under test for C1: a buddy rooted at `/proj`. -/
def BC1 : PlotBuddy :=
  { style_dir_path := "/proj", current_style := none
    icon_logo_path := none, text_logo_path := none }

/-- Claim C1, counterexample: the style file `/proj/bad_style.mplstyle`
exists and its parse throws, yet `load_style_from_file` returns
`ok (False, ...)` rather than raising — the `try/except Exception`
swallows the parse error. -/
theorem claim_C1_counterexample :
    WC1.pathExists "/proj/bad_style.mplstyle" = true ∧
    WC1.styleUseOk "/proj/bad_style.mplstyle" = false ∧
    PlotBuddy.load_style_from_file WC1 BC1 "bad_style" =
      Except.ok (false, BC1,
        ["Error loading style bad_style: could not parse /proj/bad_style.mplstyle"]) :=
  ⟨by decide, rfl, rfl⟩

/-- Claim C1 (amended): `load_style_from_file` returns a boolean and
never raises at all — a missing file yields `False` with a warning, and a
present-but-malformed file also yields `False` (the parse exception is
caught), with `True` exactly when the file exists and parses. -/
theorem claim_C1_amended (w : World) (b : PlotBuddy) (sn : String) :
    (∀ e, PlotBuddy.load_style_from_file w b sn ≠ Except.error e) ∧
    (∀ success b2 log,
      PlotBuddy.load_style_from_file w b sn = Except.ok (success, b2, log) →
      (success = true ↔
        w.pathExists (joinPath b.style_dir_path (sn ++ ".mplstyle")) = true ∧
        w.styleUseOk (joinPath b.style_dir_path (sn ++ ".mplstyle")) = true)) := by
  constructor
  · intro e
    rcases load_style_cases w b sn with ⟨log, hL⟩ | ⟨log, hL⟩ <;> simp [hL]
  · intro success b2 log h
    unfold PlotBuddy.load_style_from_file pltStyleUse at h
    by_cases h1 : w.pathExists (joinPath b.style_dir_path (sn ++ ".mplstyle")) = false
    · simp [h1] at h
      obtain ⟨hs, -, -⟩ := h
      subst hs
      simp [h1]
    · by_cases h2 : w.styleUseOk (joinPath b.style_dir_path (sn ++ ".mplstyle"))
      · simp [h1, h2] at h
        obtain ⟨hs, -, -⟩ := h
        subst hs
        have h1t : w.pathExists (joinPath b.style_dir_path (sn ++ ".mplstyle")) = true := by
          simpa using h1
        simp [h1t, h2]
      · simp [h1, h2] at h
        obtain ⟨hs, -, -⟩ := h
        subst hs
        simp [h2]

/-- World in which `/proj/good_style.mplstyle` exists and parses. -/
def WOK : World :=
  { cwd := "/proj", repoRoot := "/repo"
    pathExists := fun p => p = "/proj/good.mplstyle"
    styleUseOk := fun _ => true
    imreadOk := fun _ => true, saveOk := fun _ => true
    listDir := fun _ => [], resolve := fun p => p }

/-- Claim C1 witness: the amended theorem applied at `WOK`/`BC1` with the
successful load discharged concretely. -/
theorem claim_C1_witness :
    ((true : Bool) = true ↔
      WOK.pathExists (joinPath BC1.style_dir_path ("good" ++ ".mplstyle")) = true ∧
      WOK.styleUseOk (joinPath BC1.style_dir_path ("good" ++ ".mplstyle")) = true) :=
  (claim_C1_amended WOK BC1 "good").2 true
    { BC1 with current_style := some "good" } [] (by rfl)

/-! ### Claim C4 -/

/-- Claim C4: `current_style` changes only on a successful load, in which
case it becomes the loaded style name; any failed load leaves the whole
state (hence `current_style`) unchanged; and a set `current_style` never
transitions back to unset. -/
theorem claim_C4_current_style_transitions (w : World) (b : PlotBuddy) (sn : String)
    (success : Bool) (b2 : PlotBuddy) (log : List String)
    (h : PlotBuddy.load_style_from_file w b sn = Except.ok (success, b2, log)) :
    (success = true → b2.current_style = some sn) ∧
    (success = false → b2 = b) ∧
    (b.current_style ≠ none → b2.current_style ≠ none) := by
  rcases load_style_cases w b sn with ⟨log2, hL⟩ | ⟨log2, hL⟩ <;>
    rw [hL] at h <;>
    obtain ⟨h1, h2, h3⟩ := by simpa using h
  · subst h1
    refine ⟨fun _ => by rw [← h2], fun hfalse => by simp at hfalse, fun _ => by rw [← h2]; simp⟩
  · subst h1
    refine ⟨fun htrue => by simp at htrue, fun _ => h2.symm, fun hne => by rw [← h2]; exact hne⟩

/-- Claim C4 witness: a successful load at `WOK` sets `current_style`,
and the other two conjuncts hold vacuously/trivially there. -/
theorem claim_C4_witness :
    ((true : Bool) = true →
      ({ BC1 with current_style := some "good" } : PlotBuddy).current_style = some "good") ∧
    ((true : Bool) = false → ({ BC1 with current_style := some "good" } : PlotBuddy) = BC1) ∧
    (BC1.current_style ≠ none →
      ({ BC1 with current_style := some "good" } : PlotBuddy).current_style ≠ none) :=
  claim_C4_current_style_transitions WOK BC1 "good" true
    { BC1 with current_style := some "good" } [] (by rfl)

/-! ### Claim C5 -/

/-- Claim C5: for any directory given at construction (the current
working directory when absent), the constructor sets `icon_logo_path` to
`<dirBaseName>_icon_logo.png` inside that directory exactly when that
file exists, likewise `text_logo_path`; an absent logo leaves the field
unset (and construction is a total function — nothing is raised). -/
theorem claim_C5_init_logo_paths (w : World) (d : String) (hd : d ≠ "") :
    ((PlotBuddy.init w (some d)).style_dir_path = d) ∧
    ((PlotBuddy.init w (some d)).icon_logo_path =
      if w.pathExists (joinPath d (basename d ++ "_icon_logo.png")) then
        some (joinPath d (basename d ++ "_icon_logo.png")) else none) ∧
    ((PlotBuddy.init w (some d)).text_logo_path =
      if w.pathExists (joinPath d (basename d ++ "_text_logo.png")) then
        some (joinPath d (basename d ++ "_text_logo.png")) else none) ∧
    ((PlotBuddy.init w none).style_dir_path = w.cwd) ∧
    ((PlotBuddy.init w none).icon_logo_path =
      if w.pathExists (joinPath w.cwd (basename w.cwd ++ "_icon_logo.png")) then
        some (joinPath w.cwd (basename w.cwd ++ "_icon_logo.png")) else none) ∧
    ((PlotBuddy.init w none).text_logo_path =
      if w.pathExists (joinPath w.cwd (basename w.cwd ++ "_text_logo.png")) then
        some (joinPath w.cwd (basename w.cwd ++ "_text_logo.png")) else none) := by
  unfold PlotBuddy.init
  simp [hd]

/-- World for the C5 witness: `/work/acme` holds only the icon logo
`acme_icon_logo.png`. -/
def WC5 : World :=
  { cwd := "/work/acme", repoRoot := "/repo"
    pathExists := fun p => p = "/work/acme/acme_icon_logo.png"
    styleUseOk := fun _ => true
    imreadOk := fun _ => true, saveOk := fun _ => true
    listDir := fun _ => [], resolve := fun p => p }

/-- Claim C5 witness: the theorem applied at the concrete directory
`/work/acme`, where the icon logo exists and the text logo does not. -/
theorem claim_C5_witness :
    ((PlotBuddy.init WC5 (some "/work/acme")).style_dir_path = "/work/acme") ∧
    ((PlotBuddy.init WC5 (some "/work/acme")).icon_logo_path =
      if WC5.pathExists (joinPath "/work/acme" (basename "/work/acme" ++ "_icon_logo.png")) then
        some (joinPath "/work/acme" (basename "/work/acme" ++ "_icon_logo.png")) else none) ∧
    ((PlotBuddy.init WC5 (some "/work/acme")).text_logo_path =
      if WC5.pathExists (joinPath "/work/acme" (basename "/work/acme" ++ "_text_logo.png")) then
        some (joinPath "/work/acme" (basename "/work/acme" ++ "_text_logo.png")) else none) ∧
    ((PlotBuddy.init WC5 none).style_dir_path = WC5.cwd) ∧
    ((PlotBuddy.init WC5 none).icon_logo_path =
      if WC5.pathExists (joinPath WC5.cwd (basename WC5.cwd ++ "_icon_logo.png")) then
        some (joinPath WC5.cwd (basename WC5.cwd ++ "_icon_logo.png")) else none) ∧
    ((PlotBuddy.init WC5 none).text_logo_path =
      if WC5.pathExists (joinPath WC5.cwd (basename WC5.cwd ++ "_text_logo.png")) then
        some (joinPath WC5.cwd (basename WC5.cwd ++ "_text_logo.png")) else none) :=
  claim_C5_init_logo_paths WC5 "/work/acme" (by decide)

/-! ### Claim C6 -/

/-- Claim C6: with no explicit themes directory, `from_theme` probes the
user-level location, then the system/bundled location, then falls back to
the legacy relative path — first existing candidate wins; with an
explicit themes directory, its theme subdirectory is used directly with
no probing, and the constructed instance is rooted at the resolved
directory. -/
theorem claim_C6_from_theme_resolution (w : World) (tn : String) :
    (∀ d, resolve_theme_dir w tn (some d) = joinPath d tn) ∧
    (w.pathExists (userThemePath w tn) = true →
      resolve_theme_dir w tn none = userThemePath w tn) ∧
    (w.pathExists (userThemePath w tn) = false →
      w.pathExists (systemThemePath w tn) = true →
      resolve_theme_dir w tn none = systemThemePath w tn) ∧
    (w.pathExists (userThemePath w tn) = false →
      w.pathExists (systemThemePath w tn) = false →
      resolve_theme_dir w tn none = legacyThemePath tn) ∧
    (∀ td, resolve_theme_dir w tn td ≠ "" →
      ∃ r, PlotBuddy.from_theme w tn td = Except.ok r ∧
        r.1.style_dir_path = resolve_theme_dir w tn td) := by
  refine ⟨fun d => rfl, ?_, ?_, ?_, ?_⟩
  · intro h
    simp [resolve_theme_dir, h]
  · intro h1 h2
    simp [resolve_theme_dir, h1, h2]
  · intro h1 h2
    simp [resolve_theme_dir, h1, h2]
  · intro td hne
    rcases load_style_cases w (PlotBuddy.init w (some (resolve_theme_dir w tn td))) (tn ++ "_style")
      with ⟨log, hL⟩ | ⟨log, hL⟩
    · refine ⟨({ PlotBuddy.init w (some (resolve_theme_dir w tn td)) with
        current_style := some (tn ++ "_style") }, log), ?_, ?_⟩
      · unfold PlotBuddy.from_theme
        simp only [hL]
      · simp [PlotBuddy.init, hne]
    · refine ⟨(PlotBuddy.init w (some (resolve_theme_dir w tn td)),
        log ++ ["Warning: Could not load style for theme " ++ quoted tn ++
          ", using default styling"]), ?_, ?_⟩
      · unfold PlotBuddy.from_theme
        simp only [hL]
      · simp [PlotBuddy.init, hne]

/-- World for the C6 witness: only the system/bundled candidate for theme
`corp` exists (and its style file is absent, so the load degrades). -/
def WC6 : World :=
  { cwd := "/work", repoRoot := "/repo"
    pathExists := fun p => p = "/repo/slideagent_mcp/resources/themes/core/corp"
    styleUseOk := fun _ => true
    imreadOk := fun _ => true, saveOk := fun _ => true
    listDir := fun _ => [], resolve := fun p => p }

/-- Claim C6 witness: the theorem instantiated at `WC6` and theme
`corp`; the probe hypotheses are discharged concretely. -/
theorem claim_C6_witness :
    resolve_theme_dir WC6 "corp" none = systemThemePath WC6 "corp" :=
  (claim_C6_from_theme_resolution WC6 "corp").2.2.1 (by decide) (by decide)

/-! ### Claim C8 -/

/-- Claim C8: `add_logo` raises `FileNotFoundError` whenever the logo
path is unset (`None`), empty, or names no existing file — a missing
explicitly requested logo is fatal, never a warning-and-continue. -/
theorem claim_C8_add_logo_missing_fatal (w : World) (fig : Figure) (lp : Option String)
    (pos : String)
    (h : lp = none ∨ lp = some "" ∨ ∃ p, lp = some p ∧ w.pathExists p = false) :
    ∃ msg, PlotBuddy.add_logo w fig lp pos = Except.error (.fileNotFoundError msg) := by
  rcases h with rfl | rfl | ⟨p, rfl, hp⟩
  · exact ⟨"Logo file not found: None", rfl⟩
  · exact ⟨"Logo file not found: ", by simp [PlotBuddy.add_logo]⟩
  · refine ⟨"Logo file not found: " ++ p, ?_⟩
    unfold PlotBuddy.add_logo
    simp [hp]

/-- World for the C8 witness: no file exists anywhere. -/
def WC8 : World :=
  { cwd := "/work", repoRoot := "/repo"
    pathExists := fun _ => false
    styleUseOk := fun _ => true
    imreadOk := fun _ => true, saveOk := fun _ => true
    listDir := fun _ => [], resolve := fun p => p }

/-- Claim C8 witness: requesting the nonexistent logo `/work/logo.png`
raises `FileNotFoundError`. -/
theorem claim_C8_witness :
    ∃ msg, PlotBuddy.add_logo WC8 { axes := [], texts := [] } (some "/work/logo.png")
      "bottom-right" = Except.error (.fileNotFoundError msg) :=
  claim_C8_add_logo_missing_fatal WC8 { axes := [], texts := [] } (some "/work/logo.png")
    "bottom-right" (Or.inr (Or.inr ⟨"/work/logo.png", rfl, rfl⟩))

/-! ### Claim C9 -/

/-- Claim C9: with no manual `legend_entries` and no labelled plot
elements on the axis, `create_legend` returns `None` and attaches no
legend — it neither raises nor builds an empty legend. -/
theorem claim_C9_create_legend_empty (ax : AxisState) (nc : Option Nat) (pos : String)
    (h : ax.legendItems = []) :
    PlotBuddy.create_legend ax none nc pos = Except.ok (none, ax) := by
  unfold PlotBuddy.create_legend
  simp [h]

/-- Claim C9 witness: an axis with no labelled elements yields `None`
and is returned unchanged. -/
theorem claim_C9_witness :
    PlotBuddy.create_legend { legendItems := [], legend := none } none none "bottom" =
      Except.ok (none, { legendItems := [], legend := none }) :=
  claim_C9_create_legend_empty { legendItems := [], legend := none } none "bottom" rfl

/-! ### Claim C2 -/

/-- Axis used in the C2 counterexample: one labelled line element. -/
def AX1 : AxisState :=
  { legendItems := [(Handle.line2D "red", "Revenue")], legend := none }

/-- The legend `create_legend` actually builds for `AX1`. -/
def L1 : Legend :=
  { handles := [Handle.rectPatch "red"], labels := ["Revenue"], ncol := 1, loc := "upper center" }

/-- Claim C2 counterexample: `create_legend` called with the
unrecognized position `"middle"` does NOT raise — `positions.get(position,
positions['bottom'])` silently falls back to the bottom configuration and
a legend is created, contradicting the claim that all three placement
operations raise on an invalid position. -/
theorem claim_C2_counterexample :
    PlotBuddy.create_legend AX1 none none "middle" =
      Except.ok (some L1, { AX1 with legend := some L1 }) := by rfl

/-- Claim C2 (amended): for an unrecognized position, `add_logo` (once
its earlier checks pass: an existing, loadable logo file) and
`add_source_citation` (for a non-empty source) raise `ValueError` whose
message lists the accepted position values; `create_legend`, by contrast,
raises nothing and behaves exactly as if the position were `"bottom"`. -/
theorem claim_C2_amended (w : World) (pos : String) :
    (∀ fig p, p ≠ "" → w.pathExists p = true → w.imreadOk p = true →
      logoPositionKeys.contains pos = false →
      PlotBuddy.add_logo w fig (some p) pos =
        Except.error (.valueError ("Invalid position: " ++ pos ++ ". Must be one of [" ++
          quoted "bottom-right" ++ ", " ++ quoted "bottom-left" ++ ", " ++
          quoted "top-right" ++ ", " ++ quoted "top-left" ++ "]"))) ∧
    (∀ fig source, source ≠ "" → citePositionKeys.contains pos = false →
      PlotBuddy.add_source_citation fig source pos =
        Except.error (.valueError ("Invalid position: " ++ pos ++ ". Must be one of [" ++
          quoted "bottom-left" ++ ", " ++ quoted "bottom-right" ++ "]"))) ∧
    (∀ ax entries nc, legendPositions.lookup pos = none →
      PlotBuddy.create_legend ax entries nc pos =
        PlotBuddy.create_legend ax entries nc "bottom") := by
  refine ⟨?_, ?_, ?_⟩
  · intro fig p hne hex him hpos
    unfold PlotBuddy.add_logo
    simp [hne, hex, him]
    simpa using hpos
  · intro fig source hs hpos
    unfold PlotBuddy.add_source_citation
    simp [hs]
    simpa using hpos
  · intro ax entries nc hpos
    unfold PlotBuddy.create_legend
    cases hc : (match entries with
      | some es => manualEntries es
      | none => Except.ok ((ax.legendItems.map Prod.fst).map convertHandle,
          ax.legendItems.map Prod.snd)) with
    | error e => simp [hc]
    | ok pr =>
      obtain ⟨handles, labels⟩ := pr
      simp only [hc]
      by_cases hemp : handles.isEmpty || labels.isEmpty
      · simp [hemp]
      · have hpos2 : List.lookup pos [("bottom", "upper center"), ("right", "center left"),
          ("top", "lower center")] = none := hpos
        simp [hemp, legendPositions, hpos2]

/-- World for the C2 witness: the logo file exists and decodes. -/
def WC2 : World :=
  { cwd := "/work", repoRoot := "/repo"
    pathExists := fun p => p = "/work/logo.png"
    styleUseOk := fun _ => true
    imreadOk := fun _ => true, saveOk := fun _ => true
    listDir := fun _ => [], resolve := fun p => p }

/-- Claim C2 witness: the amended theorem instantiated at position
`"middle"`, a loadable logo, a non-empty source and the axis `AX1`. -/
theorem claim_C2_witness :
    PlotBuddy.add_logo WC2 { axes := [], texts := [] } (some "/work/logo.png") "middle" =
      Except.error (.valueError ("Invalid position: " ++ "middle" ++ ". Must be one of [" ++
        quoted "bottom-right" ++ ", " ++ quoted "bottom-left" ++ ", " ++
        quoted "top-right" ++ ", " ++ quoted "top-left" ++ "]")) ∧
    PlotBuddy.add_source_citation { axes := [], texts := [] } "BLS" "middle" =
      Except.error (.valueError ("Invalid position: " ++ "middle" ++ ". Must be one of [" ++
        quoted "bottom-left" ++ ", " ++ quoted "bottom-right" ++ "]")) ∧
    PlotBuddy.create_legend AX1 none none "middle" =
      PlotBuddy.create_legend AX1 none none "bottom" :=
  ⟨(claim_C2_amended WC2 "middle").1 { axes := [], texts := [] } "/work/logo.png"
      (by decide) rfl rfl (by decide),
   (claim_C2_amended WC2 "middle").2.1 { axes := [], texts := [] } "BLS" (by decide) (by decide),
   (claim_C2_amended WC2 "middle").2.2 AX1 none none (by decide)⟩

/-! ### Claim C3 -/

/-- World for the C3 counterexample: `./theme` exists and holds the CSS
file `a_theme_b_theme.css` (a stem with an interior `_theme`); the style
file matching the code's derived name exists and parses. -/
def WC3 : World :=
  { cwd := "/proj", repoRoot := "/repo"
    pathExists := fun p => p = "theme" || p = "/proj/theme/a_b_style.mplstyle"
    styleUseOk := fun _ => true
    imreadOk := fun _ => true, saveOk := fun _ => true
    listDir := fun d => if d = "theme" then ["a_theme_b_theme.css"] else []
    resolve := fun _ => "/proj/theme" }

/-- Claim C3 counterexample: the stem of `a_theme_b_theme.css` is
`a_theme_b_theme`; stripping only the trailing `_theme` suffix (the
claim) would give theme name `a_theme_b` and style `a_theme_b_style`,
but `stem.replace("_theme", "")` removes the interior occurrence too, so
the loaded style is `a_b_style`. -/
theorem claim_C3_counterexample :
    PlotBuddy.from_project_config WC3 =
      Except.ok ({ style_dir_path := "/proj/theme", current_style := some "a_b_style",
                   icon_logo_path := none, text_logo_path := none }, []) ∧
    pathStem "a_theme_b_theme.css" = "a_theme_b_theme" ∧
    (some "a_b_style" : Option String) ≠ some ("a_theme_b" ++ "_style") :=
  ⟨by rfl, by rfl, by decide⟩

/-- Claim C3 (amended): for the first `*_theme.css` file found by
project-config resolution in `./theme` or, failing that, `../theme`, the
derived theme name is the filename stem with EVERY occurrence of
`_theme` removed (`str.replace` replaces all occurrences, so an interior
`_theme` is deleted too; `acme_corp_theme.css` still yields `acme_corp`);
if neither directory exists, or the discovered directory contains no
`*_theme.css` file, resolution falls back to the hardcoded default theme
`acme_corp` and emits a warning instead of raising. -/
theorem claim_C3_amended (w : World) :
    (w.pathExists "theme" = false → w.pathExists "../theme" = false →
      ∃ b log, PlotBuddy.from_theme w "acme_corp" none = Except.ok (b, log) ∧
        PlotBuddy.from_project_config w =
          Except.ok (b, "Warning: Theme folder not found, using default theme" :: log)) ∧
    (w.pathExists "theme" = true →
      (w.listDir "theme").filter (fun g => strEndsWith g "_theme.css") = [] →
      ∃ b log, PlotBuddy.from_theme w "acme_corp" none = Except.ok (b, log) ∧
        PlotBuddy.from_project_config w =
          Except.ok (b, ("Warning: No theme CSS file found in " ++ "theme") :: log)) ∧
    (w.pathExists "theme" = false → w.pathExists "../theme" = true →
      (w.listDir "../theme").filter (fun g => strEndsWith g "_theme.css") = [] →
      ∃ b log, PlotBuddy.from_theme w "acme_corp" none = Except.ok (b, log) ∧
        PlotBuddy.from_project_config w =
          Except.ok (b, ("Warning: No theme CSS file found in " ++ "../theme") :: log)) ∧
    (∀ f rest, w.pathExists "theme" = true →
      (w.listDir "theme").filter (fun g => strEndsWith g "_theme.css") = f :: rest →
      pyReplace (pathStem f) "_theme" "" ≠ "" →
      ∃ flag b2 log,
        PlotBuddy.load_style_from_file w (PlotBuddy.init w (some (w.resolve "theme")))
          (pyReplace (pathStem f) "_theme" "" ++ "_style") = Except.ok (flag, b2, log) ∧
        PlotBuddy.from_project_config w = Except.ok (b2, log)) ∧
    (∀ f rest, w.pathExists "theme" = false → w.pathExists "../theme" = true →
      (w.listDir "../theme").filter (fun g => strEndsWith g "_theme.css") = f :: rest →
      pyReplace (pathStem f) "_theme" "" ≠ "" →
      ∃ flag b2 log,
        PlotBuddy.load_style_from_file w (PlotBuddy.init w (some (w.resolve "../theme")))
          (pyReplace (pathStem f) "_theme" "" ++ "_style") = Except.ok (flag, b2, log) ∧
        PlotBuddy.from_project_config w = Except.ok (b2, log)) := by
  refine ⟨?_, ?_, ?_, ?_, ?_⟩
  · intro h1 h2
    obtain ⟨b, log, hT⟩ := from_theme_ok w "acme_corp" none
    refine ⟨b, log, hT, ?_⟩
    unfold PlotBuddy.from_project_config
    simp [h1, h2, hT]
  · intro h1 hf
    obtain ⟨b, log, hT⟩ := from_theme_ok w "acme_corp" none
    refine ⟨b, log, hT, ?_⟩
    unfold PlotBuddy.from_project_config
    simp [h1, hf, hT]
  · intro h1 h2 hf
    obtain ⟨b, log, hT⟩ := from_theme_ok w "acme_corp" none
    refine ⟨b, log, hT, ?_⟩
    unfold PlotBuddy.from_project_config
    simp [h1, h2, hf, hT]
  · intro f rest h1 hf hne
    rcases load_style_cases w (PlotBuddy.init w (some (w.resolve "theme")))
        (pyReplace (pathStem f) "_theme" "" ++ "_style") with ⟨log, hL⟩ | ⟨log, hL⟩
    · refine ⟨true, { PlotBuddy.init w (some (w.resolve "theme")) with
        current_style := some (pyReplace (pathStem f) "_theme" "" ++ "_style") }, log, hL, ?_⟩
      unfold PlotBuddy.from_project_config
      simp [h1, hf, hne, hL]
    · refine ⟨false, PlotBuddy.init w (some (w.resolve "theme")), log, hL, ?_⟩
      unfold PlotBuddy.from_project_config
      simp [h1, hf, hne, hL]
  · intro f rest h1 h2 hf hne
    rcases load_style_cases w (PlotBuddy.init w (some (w.resolve "../theme")))
        (pyReplace (pathStem f) "_theme" "" ++ "_style") with ⟨log, hL⟩ | ⟨log, hL⟩
    · refine ⟨true, { PlotBuddy.init w (some (w.resolve "../theme")) with
        current_style := some (pyReplace (pathStem f) "_theme" "" ++ "_style") }, log, hL, ?_⟩
      unfold PlotBuddy.from_project_config
      simp [h1, h2, hf, hne, hL]
    · refine ⟨false, PlotBuddy.init w (some (w.resolve "../theme")), log, hL, ?_⟩
      unfold PlotBuddy.from_project_config
      simp [h1, h2, hf, hne, hL]

/-- Claim C3 witness: the amended theorem's `./theme` derivation branch
at `WC3`, with the glob result and non-empty derived name discharged
concretely. -/
theorem claim_C3_witness :
    ∃ flag b2 log,
      PlotBuddy.load_style_from_file WC3 (PlotBuddy.init WC3 (some (WC3.resolve "theme")))
        (pyReplace (pathStem "a_theme_b_theme.css") "_theme" "" ++ "_style") =
          Except.ok (flag, b2, log) ∧
      PlotBuddy.from_project_config WC3 = Except.ok (b2, log) :=
  (claim_C3_amended WC3).2.2.2.1 "a_theme_b_theme.css" [] rfl (by rfl) (by decide)

/-! ### Claims C7 and C10: save machinery lemmas -/

/-- Restoring one axes after the hide step gives back the original. -/
theorem restoreAxes_hideAxesStep (a : AxesBox) : restoreAxes (hideAxesStep a) = a := by
  unfold hideAxesStep restoreAxes
  by_cases h : isLogoLikeAxes a <;> simp [h]

/-- Restoring one text element after the hide step gives back the
original. -/
theorem restoreText_hideTextStep (t : FigText) : restoreText (hideTextStep t) = t := by
  unfold hideTextStep restoreText
  by_cases h : isSourceText t <;> simp [h]

/-- The restore loop undoes the hide loop on the whole figure. -/
theorem restoredFigure_eq (fig : Figure) : restoredFigure fig = fig := by
  unfold restoredFigure
  simp [restoreAxes_hideAxesStep, restoreText_hideTextStep]

/-- A list contains a copy of itself at the front. -/
theorem hasSubList_append (n r : List Char) : hasSubList n (n ++ r) = true := by
  have hp : n.isPrefixOf (n ++ r) = true :=
    List.isPrefixOf_iff_prefix.mpr ⟨r, rfl⟩
  match hnr : n ++ r with
  | [] =>
    have hn : n = [] := (List.append_eq_nil.mp hnr).1
    subst hn
    decide
  | c :: t =>
    rw [hnr] at hp
    simp [hasSubList, hp]

/-- A text starting with the literal `"Source:"` satisfies the
case-insensitive substring test that `_save_clean_version` applies. -/
theorem sourceText_of_startsWith (t : FigText)
    (h : strStartsWith t.content "Source:" = true) : isSourceText t = true := by
  unfold strStartsWith at h
  obtain ⟨r, hr⟩ := List.isPrefixOf_iff_prefix.mp h
  unfold isSourceText strContainsSub pyLower
  show hasSubList "source:".data (t.content.data.map Char.toLower) = true
  rw [← hr, List.map_append]
  have hmap : ("Source:".data.map Char.toLower) = "source:".data := by decide
  rw [hmap]
  exact hasSubList_append _ _

/-- Hiding does not change whether an axes looks like a logo inset. -/
theorem isLogoLikeAxes_hide (a : AxesBox) :
    isLogoLikeAxes (hideAxesStep a).1 = isLogoLikeAxes a := by
  unfold hideAxesStep
  by_cases h : isLogoLikeAxes a = true
  · rw [if_pos h]
    rfl
  · rw [if_neg h]

/-! ### Claim C10 -/

/-- Claim C10: when `_save_clean_version` returns normally, every axes
and text element it temporarily hid is restored to its pre-call
visibility, so the figure is exactly as before; only when the underlying
`savefig` raises is the restoration skipped (the figure is left in the
hidden state as the exception propagates). -/
theorem claim_C10_clean_save_restores (w : World) (fig : Figure) (fp : String) :
    (w.saveOk fp = true →
      PlotBuddy.save_clean_version w fig fp =
        Except.ok (fig, [(fp, cleanedFigure fig)])) ∧
    (w.saveOk fp = false →
      PlotBuddy.save_clean_version w fig fp =
        Except.error (.exception ("savefig failed: " ++ fp), cleanedFigure fig)) := by
  constructor <;> intro h <;> unfold PlotBuddy.save_clean_version <;>
    simp [h, restoredFigure_eq]

/-- Figure used by the save-related witnesses: one logo-like inset, one
regular axes, one source citation and one plain note. -/
def FT : Figure :=
  { axes := [logoAxes,
      { xticks := 5, yticks := 4, xlabel := "year", ylabel := "usd", title := "Rev",
        visible := true }]
    texts := [{ content := "Source: BLS", visible := true },
      { content := "draft note", visible := true }] }

/-- World in which every `savefig` succeeds. -/
def WSAVE : World :=
  { cwd := "/work", repoRoot := "/repo"
    pathExists := fun _ => false
    styleUseOk := fun _ => true
    imreadOk := fun _ => true, saveOk := fun _ => true
    listDir := fun _ => [], resolve := fun p => p }

/-- Claim C10 witness: a concrete successful clean save returns the
figure unchanged. -/
theorem claim_C10_witness :
    PlotBuddy.save_clean_version WSAVE FT "out.png" =
      Except.ok (FT, [("out.png", cleanedFigure FT)]) :=
  (claim_C10_clean_save_restores WSAVE FT "out.png").1 rfl

/-! ### Claim C7 -/

/-- Claim C7: a branded save on `name.ext` writes exactly the two files
`name_branded.ext` and `name_clean.ext` (in that order) and returns both
paths; the clean snapshot has every text element starting with the
literal `"Source:"` hidden, along with every logo-like inset axes, and
the figure is restored afterwards. -/
theorem claim_C7_branded_save (w : World) (fig : Figure) (fp : String)
    (hb : w.saveOk ((splitext fp).1 ++ "_branded" ++ (splitext fp).2) = true)
    (hc : w.saveOk ((splitext fp).1 ++ "_clean" ++ (splitext fp).2) = true) :
    PlotBuddy.save w fig fp true =
      Except.ok { returnedPaths := [(splitext fp).1 ++ "_branded" ++ (splitext fp).2,
                    (splitext fp).1 ++ "_clean" ++ (splitext fp).2]
                  finalFig := fig
                  writes := [((splitext fp).1 ++ "_branded" ++ (splitext fp).2, fig),
                    ((splitext fp).1 ++ "_clean" ++ (splitext fp).2, cleanedFigure fig)] } ∧
    (∀ t ∈ (cleanedFigure fig).texts,
      strStartsWith t.content "Source:" = true → t.visible = false) ∧
    (∀ a ∈ (cleanedFigure fig).axes,
      isLogoLikeAxes a = true → a.visible = false) := by
  refine ⟨?_, ?_, ?_⟩
  · unfold PlotBuddy.save PlotBuddy.save_clean_version
    simp [hb, hc, restoredFigure_eq]
  · intro t ht hts
    simp only [cleanedFigure] at ht
    obtain ⟨t0, ht0, hteq⟩ := List.mem_map.mp ht
    subst hteq
    by_cases hsrc : isSourceText t0 = true
    · simp [hideTextStep, hsrc]
    · have habs : isSourceText t0 = true := by
        apply sourceText_of_startsWith
        simpa [hideTextStep, hsrc] using hts
      exact absurd habs hsrc
  · intro a ha hlogo
    simp only [cleanedFigure] at ha
    obtain ⟨a0, ha0, haeq⟩ := List.mem_map.mp ha
    subst haeq
    rw [isLogoLikeAxes_hide] at hlogo
    simp [hideAxesStep, hlogo]

/-- Claim C7 witness: the theorem at `WSAVE`, the figure `FT` and the
path `plots/chart.png`, with both save successes discharged concretely. -/
theorem claim_C7_witness :
    PlotBuddy.save WSAVE FT "plots/chart.png" true =
      Except.ok { returnedPaths :=
                    [(splitext "plots/chart.png").1 ++ "_branded" ++
                      (splitext "plots/chart.png").2,
                    (splitext "plots/chart.png").1 ++ "_clean" ++
                      (splitext "plots/chart.png").2]
                  finalFig := FT
                  writes := [((splitext "plots/chart.png").1 ++ "_branded" ++
                      (splitext "plots/chart.png").2, FT),
                    ((splitext "plots/chart.png").1 ++ "_clean" ++
                      (splitext "plots/chart.png").2, cleanedFigure FT)] } ∧
    (∀ t ∈ (cleanedFigure FT).texts,
      strStartsWith t.content "Source:" = true → t.visible = false) ∧
    (∀ a ∈ (cleanedFigure FT).axes,
      isLogoLikeAxes a = true → a.visible = false) :=
  claim_C7_branded_save WSAVE FT "plots/chart.png" rfl rfl
